import Mathlib

/-!
Shallow embedding of the playback-state synchronization loop and the event
handlers of the Spotify terminal client in `src/main.py`, together with
theorems settling the specification claims about them.

Modelling conventions:
* Python `None` becomes `Option.none`; a falsy playback response becomes
  `Option.none` at the response level.
* A Python exception is a value of `PyErr`; a `try` body is a function into
  `Except PyErr _`, and the `except` clause is a `match` on that result.
* The Textual widgets touched by the code are modelled by the record of
  fields the code writes (`BarState` for the playback bar).
* Calls into the Spotify client and the UI are recorded as an `Effect`
  trace; the outcome of each remote call is an explicit parameter of the
  handler (success, or the exception it raised).
-/

/-- Exception classes distinguished by the handlers in `src/main.py`:
`spotifyError` models `spotipy.SpotifyException`; the others model the
builtin Python exceptions the code can raise. -/
inductive PyErr where
  | spotifyError
  | indexError
  | typeError
  | keyError
  | otherError
  deriving DecidableEq, BEq

/-- One artist object, as read by `artist['name']`. -/
structure Artist where
  name : String
  deriving DecidableEq, BEq

/-- The `item` object of a playback snapshot: the fields read by
`update_playback_state` (`item['name']`, `item['artists']`,
`item['duration_ms']`). -/
structure TrackItem where
  name : String
  artists : List Artist
  duration_ms : Nat
  deriving DecidableEq, BEq

/-- A playback snapshot as returned by `sp.current_playback()` when the
response is truthy: `is_playing`, the possibly-null `item`, and
`progress_ms`. -/
structure PlaybackSnapshot where
  is_playing : Bool
  item : Option TrackItem
  progress_ms : Nat
  deriving DecidableEq, BEq

/-- Outcome of one `sp.current_playback()` call: either the call raised an
exception, or it returned a response (`none` models a falsy response such
as Python `None`). -/
inductive PollResult where
  | err (e : PyErr)
  | ok (s : Option PlaybackSnapshot)
  deriving DecidableEq, BEq

/-- The fields of the playback bar that `PlaybackBar` writes: the label text
of `#track_info` and the `total` and `progress` of `#progress_bar`. -/
structure BarState where
  label : String
  total : Nat
  progress : Nat
  deriving DecidableEq, BEq

/-- The bar as composed on startup: label `Not Playing`, progress bar with
`total=100` and initial progress `0`. -/
def bar0 : BarState := { label := "Not Playing", total := 100, progress := 0 }

/-- `PlaybackBar.update_status`: sets the label to the f-string
`🎵 {track_name} - {artist_name}` and assigns `bar.total = duration_ms`
and `bar.progress = progress_ms`, verbatim and unconditionally. -/
def update_status (_bar : BarState) (track_name artist_name : String)
    (progress_ms duration_ms : Nat) : BarState :=
  { label := "🎵 " ++ track_name ++ " - " ++ artist_name
  , total := duration_ms
  , progress := progress_ms }

/-- The body of the `try` block of `SpotifyTUI.update_playback_state`:
reads `current`, and when it is truthy with `is_playing` true extracts
`item['name']`, `item['artists'][0]['name']`, `progress_ms` and
`item['duration_ms']` and pushes them to the bar.  A null `item` raises
`TypeError` (`None['duration_ms']`), an empty artist list raises
`IndexError`, and a raising remote call propagates its exception. -/
def update_playback_state_raw (bar : BarState) (poll : PollResult) :
    Except PyErr BarState :=
  match poll with
  | .err e => .error e
  | .ok none => .ok bar
  | .ok (some s) =>
    if s.is_playing then
      match s.item with
      | none => .error .typeError
      | some it =>
        match it.artists with
        | [] => .error .indexError
        | a :: _ => .ok (update_status bar it.name a.name s.progress_ms it.duration_ms)
    else .ok bar

/-- `SpotifyTUI.update_playback_state`: the `try` body wrapped in the bare
`except: pass`, so every exception leaves the bar as it was. -/
def update_playback_state (bar : BarState) (poll : PollResult) : BarState :=
  match update_playback_state_raw bar poll with
  | .error _ => bar
  | .ok b => b

/-- The poll loop started by `on_mount` via `set_interval(1, ...)`:
`update_playback_state` is a plain synchronous method run on the single
Textual event loop, so each tick runs to completion before the next one
starts; a sequence of tick outcomes is therefore applied strictly in tick
start order, as a fold. -/
def runPolls (bar : BarState) (polls : List PollResult) : BarState :=
  polls.foldl update_playback_state bar

/-- Concrete snapshot of the spec scenario: track `A` by artist `X`,
duration 200000 ms, progress 50000 ms, playing. -/
def snapshotAX : PlaybackSnapshot :=
  { is_playing := true
  , item := some { name := "A", artists := [{ name := "X" }], duration_ms := 200000 }
  , progress_ms := 50000 }

/-- One full track object of a playlist item: the fields read by
`load_tracks` (`track['name']`, `track['artists']`, `track['album']['name']`)
and by the row-selected handler (`track['uri']`). -/
structure TrackObj where
  uri : String
  name : String
  artists : List Artist
  album_name : String
  deriving DecidableEq, BEq

/-- One element of `results['items']` from `sp.playlist_items`: its `track`
field may be Python `None`. -/
structure PlaylistItem where
  track : Option TrackObj
  deriving DecidableEq, BEq

/-- One playlist object, as used by `setup_ui` and playlist selection. -/
structure Playlist where
  id : String
  name : String
  deriving DecidableEq, BEq

/-- The observable calls a handler makes: remote Spotify commands, the
`current_playback` read, `notify` with message and severity, the immediate
`update_playback_state()` call, and launching `load_tracks`. -/
inductive Effect where
  | currentPlayback
  | startPlaybackUri (uri : String)
  | startPlayback
  | pausePlayback
  | nextTrack
  | prevTrack
  | notify (msg : String) (severity : String)
  | pollInvoked
  | loadTracks (playlist_id : String)
  deriving DecidableEq, BEq

/-- Whether an effect is a remote playback write (a command, as opposed to
the `current_playback` read or a UI call). -/
def isRemoteWrite : Effect → Bool
  | .startPlaybackUri _ => true
  | .startPlayback => true
  | .pausePlayback => true
  | .nextTrack => true
  | .prevTrack => true
  | _ => false

/-- Whether an effect is a user-visible notification. -/
def isNotifyEff : Effect → Bool
  | .notify _ _ => true
  | _ => false

/-- Whether an effect is the immediate out-of-cadence poll invocation. -/
def isPollCall : Effect → Bool
  | .pollInvoked => true
  | _ => false

/-- Python truthiness of `current and current['is_playing']`: a `None`
response is falsy, otherwise the `is_playing` field decides. -/
def truthyPlaying : Option PlaybackSnapshot → Bool
  | none => false
  | some s => s.is_playing

/-- `SpotifyTUI.action_toggle_play`: queries `current_playback` (whose
outcome is `queryResult`), then sends `pause_playback` if the response is
truthy and playing, else `start_playback`; the whole body sits in a bare
`except: pass`, so whatever the write raises (`cmdResult`) is swallowed.
Returns the effect trace and the uncaught exception, if any. -/
def action_toggle_play (queryResult : Except PyErr (Option PlaybackSnapshot))
    (_cmdResult : Option PyErr) : List Effect × Option PyErr :=
  match queryResult with
  | .error _ => ([Effect.currentPlayback], none)
  | .ok cur =>
    if truthyPlaying cur then
      ([Effect.currentPlayback, Effect.pausePlayback], none)
    else
      ([Effect.currentPlayback, Effect.startPlayback], none)

/-- `SpotifyTUI.action_next_track`: `sp.next_track()` inside
`try: ... except: pass` — any raise (`cmdResult`) is swallowed. -/
def action_next_track (_cmdResult : Option PyErr) : List Effect × Option PyErr :=
  ([Effect.nextTrack], none)

/-- `SpotifyTUI.action_prev_track`: `sp.previous_track()` inside
`try: ... except: pass` — any raise (`cmdResult`) is swallowed. -/
def action_prev_track (_cmdResult : Option PyErr) : List Effect × Option PyErr :=
  ([Effect.prevTrack], none)

/-- `self.current_playlist_tracks = tracks` in `load_tracks`: the stored
collection is the full fetched item list, null-track items included. -/
def load_tracks_stored (items : List PlaylistItem) : List PlaylistItem := items

/-- The items that receive a table row in `load_tracks`: the loop adds a
row only `if track:`, so the displayed sequence is the fetched list with
its null-track items filtered out. -/
def displayedItems (items : List PlaylistItem) : List TrackObj :=
  items.filterMap (fun itm => itm.track)

/-- Python `", ".join(...)` over the artist names of a row. -/
def join_artists : List Artist → String
  | [] => ""
  | [a] => a.name
  | a :: b :: rest => a.name ++ ", " ++ join_artists (b :: rest)

/-- The row contents added by `load_tracks`: title, joined artist names,
album name — one row per non-null track, in fetched order. -/
def load_tracks_rows (items : List PlaylistItem) : List (String × String × String) :=
  (displayedItems items).map (fun t => (t.name, join_artists t.artists, t.album_name))

/-- The index into the stored (unfiltered) item list of the item shown in
displayed row `i`: the position of the `(i+1)`-th non-null-track item. -/
def sourceIndex : List PlaylistItem → Nat → Option Nat
  | [], _ => none
  | itm :: rest, i =>
    match itm.track with
    | none => (sourceIndex rest i).map (fun m => m + 1)
    | some _ =>
      match i with
      | 0 => some 0
      | i' + 1 => (sourceIndex rest i').map (fun m => m + 1)

/-- The evaluation of `self.current_playlist_tracks[row_index]['track']['uri']`
in the row-selected handler: an out-of-range index raises `IndexError`, a
null `track` raises `TypeError` (`None['uri']`), otherwise the uri. -/
def lookup_track_uri (tracks : List PlaylistItem) (i : Nat) : Except PyErr String :=
  match tracks[i]? with
  | none => .error .indexError
  | some itm =>
    match itm.track with
    | none => .error .typeError
    | some t => .ok t.uri

/-- `SpotifyTUI.on_data_table_row_selected`: looks up the uri of the stored
item at the cursor row, starts playback with it (outcome `startResult`),
notifies `Playback started!` and immediately polls; the `except` clause
catches only `spotipy.SpotifyException` (notifying the device message), so
every other exception escapes the handler. -/
def on_data_table_row_selected (tracks : List PlaylistItem) (row_index : Nat)
    (startResult : Option PyErr) : List Effect × Option PyErr :=
  match lookup_track_uri tracks row_index with
  | .error e =>
    if e = .spotifyError then
      ([Effect.notify "Ensure Spotify is open on a device!" "error"], none)
    else ([], some e)
  | .ok uri =>
    match startResult with
    | some e =>
      if e = .spotifyError then
        ([Effect.startPlaybackUri uri,
          Effect.notify "Ensure Spotify is open on a device!" "error"], none)
      else ([Effect.startPlaybackUri uri], some e)
    | none =>
      ([Effect.startPlaybackUri uri,
        Effect.notify "Playback started!" "information",
        Effect.pollInvoked], none)

/-- `SpotifyTUI.on_list_view_selected`: the playlist index is checked with
`index is not None and index < len(self.playlists)` before indexing, so an
out-of-range or missing index does nothing; otherwise `load_tracks` is
launched with the selected playlist's id. -/
def on_list_view_selected (playlists : List Playlist) (index : Option Nat) :
    List Effect :=
  match index with
  | none => []
  | some i =>
    if h : i < playlists.length then
      [Effect.loadTracks (playlists.get ⟨i, h⟩).id]
    else []

/-- A concrete one-element track list used in witnesses. -/
def tracks1 : List PlaylistItem :=
  [{ track := some { uri := "spotify:track:1", name := "A",
                     artists := [{ name := "X" }], album_name := "B" } }]

/-- A concrete fetched item list whose first item has a null track,
used to witness the row-index misalignment. -/
def itemsW : List PlaylistItem :=
  [{ track := none }
  ,{ track := some { uri := "spotify:track:A", name := "TA",
                     artists := [{ name := "X" }], album_name := "AlA" } }
  ,{ track := some { uri := "spotify:track:B", name := "TB",
                     artists := [{ name := "Y" }], album_name := "AlB" } }]

/-!  Theorems: helper lemmas first, then one theorem per claim with its
witness or counterexample. -/

/-- An out-of-range row lookup raises `IndexError`. -/
theorem lookup_track_uri_oob (tracks : List PlaylistItem) (i : Nat)
    (h : tracks.length ≤ i) :
    lookup_track_uri tracks i = Except.error PyErr.indexError := by
  simp [lookup_track_uri, List.getElem?_eq_none h]

/-- A row lookup hitting a null `track` field raises `TypeError`. -/
theorem lookup_track_uri_null (tracks : List PlaylistItem) (i : Nat)
    (itm : PlaylistItem) (hg : tracks[i]? = some itm) (ht : itm.track = none) :
    lookup_track_uri tracks i = Except.error PyErr.typeError := by
  simp [lookup_track_uri, hg, ht]

/-- A failing row lookup raises `IndexError` or `TypeError`, never a
`SpotifyException`. -/
theorem lookup_track_uri_error_kinds (tracks : List PlaylistItem) (i : Nat)
    (e : PyErr) (h : lookup_track_uri tracks i = Except.error e) :
    e = PyErr.indexError ∨ e = PyErr.typeError := by
  unfold lookup_track_uri at h
  match hg : tracks[i]? with
  | none =>
    simp only [hg] at h
    exact Or.inl (Except.error.inj h).symm
  | some itm =>
    simp only [hg] at h
    match ht : itm.track with
    | none =>
      simp only [ht] at h
      exact Or.inr (Except.error.inj h).symm
    | some t =>
      simp only [ht] at h
      exact absurd h (by simp)

/-- C1: the poll never raises to its caller (it is total over every
`PollResult`, including raised exceptions), and it changes the bar only
when the remote read returned a truthy snapshot with `is_playing` true; on
a raised exception, a falsy response, `is_playing` false, a null item, or
an empty artist list the bar is returned exactly as it was. -/
theorem update_playback_state_silent (bar : BarState) (poll : PollResult) :
    (∀ e, poll = .err e → update_playback_state bar poll = bar)
    ∧ (poll = .ok none → update_playback_state bar poll = bar)
    ∧ (∀ s, poll = .ok (some s) → s.is_playing = false →
        update_playback_state bar poll = bar)
    ∧ (∀ s, poll = .ok (some s) → s.item = none →
        update_playback_state bar poll = bar)
    ∧ (∀ s it, poll = .ok (some s) → s.item = some it → it.artists = [] →
        update_playback_state bar poll = bar)
    ∧ (update_playback_state bar poll ≠ bar →
        ∃ s it a tl, poll = .ok (some s) ∧ s.is_playing = true
          ∧ s.item = some it ∧ it.artists = a :: tl) := by
  refine ⟨?_, ?_, ?_, ?_, ?_, ?_⟩
  · rintro e rfl; rfl
  · rintro rfl; rfl
  · rintro s rfl hp
    simp [update_playback_state, update_playback_state_raw, hp]
  · rintro s rfl hi
    cases hp : s.is_playing <;>
      simp [update_playback_state, update_playback_state_raw, hp, hi]
  · rintro s it rfl hi ha
    cases hp : s.is_playing <;>
      simp [update_playback_state, update_playback_state_raw, hp, hi, ha]
  · intro hne
    match hpoll : poll with
    | .err e => exact absurd (by subst hpoll; rfl) hne
    | .ok none => exact absurd (by subst hpoll; rfl) hne
    | .ok (some s) =>
      subst hpoll
      cases hp : s.is_playing with
      | false =>
        exact absurd (by simp [update_playback_state, update_playback_state_raw, hp]) hne
      | true =>
        cases hi : s.item with
        | none =>
          exact absurd (by simp [update_playback_state, update_playback_state_raw, hp, hi]) hne
        | some it =>
          cases ha : it.artists with
          | nil =>
            exact absurd (by simp [update_playback_state, update_playback_state_raw, hp, hi, ha]) hne
          | cons a tl => exact ⟨s, it, a, tl, rfl, hp, hi, ha⟩

/-- Witness for C1: the poll applied to a raised network error leaves the
startup bar unchanged. -/
theorem update_playback_state_silent_witness :
    update_playback_state bar0 (PollResult.err PyErr.otherError) = bar0 :=
  (update_playback_state_silent bar0 (PollResult.err PyErr.otherError)).1
    PyErr.otherError rfl

/-- C2: a successful poll whose snapshot is playing with item name `n`,
first artist `a`, duration `d` and progress `p` rewrites the whole bar to
label `🎵 n - a` (first artist only), total `d`, progress `p`. -/
theorem poll_success_renders_snapshot (bar : BarState) (s : PlaybackSnapshot)
    (it : TrackItem) (a : Artist) (tl : List Artist)
    (hp : s.is_playing = true) (hi : s.item = some it) (ha : it.artists = a :: tl) :
    update_playback_state bar (PollResult.ok (some s)) =
      { label := "🎵 " ++ it.name ++ " - " ++ a.name
      , total := it.duration_ms
      , progress := s.progress_ms } := by
  simp [update_playback_state, update_playback_state_raw, hp, hi, ha, update_status]

/-- Witness for C2: the spec scenario snapshot yields label `🎵 A - X`,
total 200000 and progress 50000. -/
theorem poll_success_renders_snapshot_witness :
    update_playback_state bar0 (PollResult.ok (some snapshotAX)) =
      { label := "🎵 A - X", total := 200000, progress := 50000 } :=
  poll_success_renders_snapshot bar0 snapshotAX
    { name := "A", artists := [{ name := "X" }], duration_ms := 200000 }
    { name := "X" } [] rfl rfl rfl

/-- Counterexample to C3: selecting track row 0 while the stored track list
is empty raises an `IndexError` inside the handler, and the handler's
`except spotipy.SpotifyException` clause does not catch it, so the
exception escapes uncaught. -/
theorem row_selected_uncaught_index_error :
    on_data_table_row_selected [] 0 none = ([], some PyErr.indexError) := rfl

/-- C3 amended: toggle, next and previous swallow every failure, and the
poll swallows every exception, but the track-row selection handler catches
only `spotipy.SpotifyException`: a `SpotifyException` never escapes it,
while an out-of-range row index always escapes it as an uncaught
`IndexError`, and a null track entry escapes as an uncaught `TypeError`. -/
theorem handlers_uncaught_errors (q : Except PyErr (Option PlaybackSnapshot))
    (c : Option PyErr) (tracks : List PlaylistItem) (i : Nat)
    (sr : Option PyErr) (bar : BarState) (poll : PollResult) :
    (action_toggle_play q c).2 = none
    ∧ (action_next_track c).2 = none
    ∧ (action_prev_track c).2 = none
    ∧ (∃ b, update_playback_state bar poll = b)
    ∧ (on_data_table_row_selected tracks i sr).2 ≠ some PyErr.spotifyError
    ∧ (tracks.length ≤ i →
        on_data_table_row_selected tracks i sr = ([], some PyErr.indexError))
    ∧ (∀ itm, tracks[i]? = some itm → itm.track = none →
        on_data_table_row_selected tracks i sr = ([], some PyErr.typeError)) := by
  refine ⟨?_, rfl, rfl, ⟨_, rfl⟩, ?_, ?_, ?_⟩
  · match q with
    | .error e => rfl
    | .ok cur =>
      by_cases h : truthyPlaying cur = true <;> simp [action_toggle_play, h]
  · match hl : lookup_track_uri tracks i with
    | .error e =>
      rcases lookup_track_uri_error_kinds tracks i e hl with he | he <;>
        subst he <;> simp [on_data_table_row_selected, hl]
    | .ok uri =>
      match sr with
      | none => simp [on_data_table_row_selected, hl]
      | some e =>
        by_cases he : e = PyErr.spotifyError <;>
          simp [on_data_table_row_selected, hl, he]
  · intro hle
    simp [on_data_table_row_selected, lookup_track_uri_oob tracks i hle]
  · intro itm hget htr
    simp [on_data_table_row_selected, lookup_track_uri_null tracks i itm hget htr]

/-- Witness for C3 amended: with an empty stored track list and row index 5,
the row-selected handler lets an `IndexError` escape. -/
theorem handlers_uncaught_errors_witness :
    on_data_table_row_selected [] 5 none = ([], some PyErr.indexError) :=
  (handlers_uncaught_errors (Except.ok none) none [] 5 none bar0
    (PollResult.ok none)).2.2.2.2.2.1 (by decide)

/-- Counterexample to C4: when `current_playback` raises a
`SpotifyException` inside the toggle handler, the handler emits no
notification at all — the transport-command failure is silently dropped. -/
theorem toggle_failure_no_notification :
    (action_toggle_play (Except.error PyErr.spotifyError)
        (some PyErr.spotifyError)).1.countP isNotifyEff = 0 := rfl

/-- C4 amended: the toggle, next and previous handlers never emit any
notification, success or failure; only the play-selected-track handler
surfaces a failure, and only when the failure is a
`spotipy.SpotifyException` — which it reports with the device message. -/
theorem notification_policy (q : Except PyErr (Option PlaybackSnapshot))
    (c : Option PyErr) (tracks : List PlaylistItem) (i : Nat) :
    (action_toggle_play q c).1.countP isNotifyEff = 0
    ∧ (action_next_track c).1.countP isNotifyEff = 0
    ∧ (action_prev_track c).1.countP isNotifyEff = 0
    ∧ (∀ uri, lookup_track_uri tracks i = Except.ok uri →
        on_data_table_row_selected tracks i (some PyErr.spotifyError) =
          ([Effect.startPlaybackUri uri,
            Effect.notify "Ensure Spotify is open on a device!" "error"], none))
    ∧ (∀ e, e ≠ PyErr.spotifyError →
        (on_data_table_row_selected tracks i (some e)).1.countP isNotifyEff = 0) := by
  refine ⟨?_, rfl, rfl, ?_, ?_⟩
  · match q with
    | .error e => rfl
    | .ok cur =>
      by_cases h : truthyPlaying cur = true <;>
        simp [action_toggle_play, h, List.countP_cons, isNotifyEff]
  · intro uri hl
    simp [on_data_table_row_selected, hl]
  · intro e he
    match hl : lookup_track_uri tracks i with
    | .error e2 =>
      rcases lookup_track_uri_error_kinds tracks i e2 hl with h2 | h2 <;>
        subst h2 <;> simp [on_data_table_row_selected, hl]
    | .ok uri =>
      simp [on_data_table_row_selected, hl, he, List.countP_cons, isNotifyEff]

/-- Witness for C4 amended: a one-track list whose play command raises
`SpotifyException` yields exactly the device notification. -/
theorem notification_policy_witness :
    on_data_table_row_selected tracks1 0 (some PyErr.spotifyError) =
      ([Effect.startPlaybackUri "spotify:track:1",
        Effect.notify "Ensure Spotify is open on a device!" "error"], none) :=
  (notification_policy (Except.ok none) none tracks1 0).2.2.2.1
    "spotify:track:1" rfl

/-- Counterexample to C5: selecting track row 1 when the stored list holds
one item is not a no-op — it raises an uncaught `IndexError`, so the
track-row surface is not bounds-checked. -/
theorem track_row_out_of_range_raises :
    on_data_table_row_selected tracks1 1 none = ([], some PyErr.indexError) := rfl

/-- C5 amended: only the playlist surface is bounds-checked — selecting
playlist row `i ≥ count` (or with no index) is a no-op with no effect; the
track surface instead raises an uncaught `IndexError` for `i ≥ count`,
issuing no remote call and changing no display. -/
theorem row_selection_bounds (playlists : List Playlist) (i : Nat)
    (tracks : List PlaylistItem) (j : Nat) (sr : Option PyErr)
    (hi : playlists.length ≤ i) (hj : tracks.length ≤ j) :
    on_list_view_selected playlists (some i) = []
    ∧ on_list_view_selected playlists none = []
    ∧ on_data_table_row_selected tracks j sr = ([], some PyErr.indexError) := by
  refine ⟨?_, rfl, ?_⟩
  · simp [on_list_view_selected, Nat.not_lt.mpr hi]
  · simp [on_data_table_row_selected, lookup_track_uri_oob tracks j hj]

/-- Witness for C5 amended: with an empty playlist list and an empty track
list, selecting row 2 on each surface behaves as stated. -/
theorem row_selection_bounds_witness :
    on_list_view_selected [] (some 2) = []
    ∧ on_data_table_row_selected [] 2 none = ([], some PyErr.indexError) := by
  have h := row_selection_bounds [] 2 [] 2 none (by decide) (by decide)
  exact ⟨h.1, h.2.2⟩

/-- C6: when the playback query returns, the toggle handler issues the
read followed by exactly one remote write: `pause_playback` when the
response is truthy with `is_playing` true, `start_playback` otherwise —
never both, regardless of whether the write itself then fails. -/
theorem toggle_play_one_write (cur : Option PlaybackSnapshot) (c : Option PyErr) :
    (action_toggle_play (Except.ok cur) c).1 =
      [Effect.currentPlayback,
       if truthyPlaying cur then Effect.pausePlayback else Effect.startPlayback]
    ∧ (action_toggle_play (Except.ok cur) c).1.countP isRemoteWrite = 1
    ∧ (truthyPlaying cur = true →
        (action_toggle_play (Except.ok cur) c).1.count Effect.pausePlayback = 1
        ∧ (action_toggle_play (Except.ok cur) c).1.count Effect.startPlayback = 0)
    ∧ (truthyPlaying cur = false →
        (action_toggle_play (Except.ok cur) c).1.count Effect.startPlayback = 1
        ∧ (action_toggle_play (Except.ok cur) c).1.count Effect.pausePlayback = 0) := by
  by_cases h : truthyPlaying cur = true <;>
    simp [action_toggle_play, h] <;> decide

/-- Witness for C6: a playing snapshot yields exactly one pause and no
start; a `None` response yields exactly one start and no pause. -/
theorem toggle_play_one_write_witness :
    (action_toggle_play (Except.ok (some snapshotAX)) none).1.count
        Effect.pausePlayback = 1
    ∧ (action_toggle_play (Except.ok none) none).1.count
        Effect.startPlayback = 1 :=
  ⟨((toggle_play_one_write (some snapshotAX) none).2.2.1 rfl).1,
   ((toggle_play_one_write none none).2.2.2 rfl).1⟩

/-- C8: when the row lookup succeeds and the start command succeeds, the
row-selected handler's trace is exactly the start command, the success
notification, then one immediate poll invocation — exactly one poll call,
after the start; when the start command fails, no poll is invoked. -/
theorem track_selection_immediate_poll (tracks : List PlaylistItem) (i : Nat)
    (uri : String) (hl : lookup_track_uri tracks i = Except.ok uri) :
    on_data_table_row_selected tracks i none =
      ([Effect.startPlaybackUri uri,
        Effect.notify "Playback started!" "information",
        Effect.pollInvoked], none)
    ∧ (on_data_table_row_selected tracks i none).1.countP isPollCall = 1
    ∧ (∀ e, (on_data_table_row_selected tracks i (some e)).1.countP isPollCall = 0) := by
  refine ⟨?_, ?_, ?_⟩
  · simp [on_data_table_row_selected, hl]
  · simp [on_data_table_row_selected, hl, List.countP_cons, isPollCall]
  · intro e
    by_cases he : e = PyErr.spotifyError <;>
      simp [on_data_table_row_selected, hl, he, List.countP_cons, isPollCall]

/-- Witness for C8: a concrete one-track list, selecting row 0 with a
successful start, performs the immediate poll exactly once. -/
theorem track_selection_immediate_poll_witness :
    on_data_table_row_selected tracks1 0 none =
      ([Effect.startPlaybackUri "spotify:track:1",
        Effect.notify "Playback started!" "information",
        Effect.pollInvoked], none) :=
  (track_selection_immediate_poll tracks1 0 "spotify:track:1" rfl).1

/-- For any position of the displayed sequence, its stored position exists
and is at least the displayed position. -/
theorem sourceIndex_ge (items : List PlaylistItem) :
    ∀ i m, sourceIndex items i = some m → i ≤ m := by
  induction items with
  | nil => intro i m h; simp [sourceIndex] at h
  | cons itm rest ih =>
    intro i m h
    match ht : itm.track with
    | none =>
      simp only [sourceIndex, ht] at h
      obtain ⟨m', hm', rfl⟩ := Option.map_eq_some'.mp h
      exact Nat.le_succ_of_le (ih i m' hm')
    | some t =>
      match i with
      | 0 => exact Nat.zero_le m
      | i' + 1 =>
        simp only [sourceIndex, ht] at h
        obtain ⟨m', hm', rfl⟩ := Option.map_eq_some'.mp h
        exact Nat.succ_le_succ (ih i' m' hm')

/-- Every displayed row has a stored position, and the stored item there is
exactly the displayed track. -/
theorem sourceIndex_display (items : List PlaylistItem) :
    ∀ i, i < (displayedItems items).length →
      ∃ m, sourceIndex items i = some m
        ∧ items[m]?.bind (fun itm => itm.track) = (displayedItems items)[i]? := by
  induction items with
  | nil => intro i h; simp [displayedItems] at h
  | cons itm rest ih =>
    intro i hi
    match ht : itm.track with
    | none =>
      have hd : displayedItems (itm :: rest) = displayedItems rest := by
        simp [displayedItems, List.filterMap_cons_none ht]
      rw [hd] at hi ⊢
      obtain ⟨m, hm, hbind⟩ := ih i hi
      refine ⟨m + 1, ?_, ?_⟩
      · simp [sourceIndex, ht, hm]
      · simpa using hbind
    | some t =>
      have hd : displayedItems (itm :: rest) = t :: displayedItems rest := by
        simp [displayedItems, List.filterMap_cons_some ht]
      match i with
      | 0 =>
        refine ⟨0, ?_, ?_⟩
        · simp [sourceIndex, ht]
        · simp [hd, ht]
      | i' + 1 =>
        rw [hd] at hi
        have hi' : i' < (displayedItems rest).length := Nat.lt_of_succ_lt_succ hi
        obtain ⟨m, hm, hbind⟩ := ih i' hi'
        refine ⟨m + 1, ?_, ?_⟩
        · simp [sourceIndex, ht, hm]
        · rw [hd]
          simpa using hbind

/-- When every fetched item up to position `i` exists and has a non-null
track, displayed row `i` sits at stored position `i` and shows exactly the
stored item there. -/
theorem sourceIndex_prefix_ok (items : List PlaylistItem) :
    ∀ i, (∀ j, j ≤ i → (items[j]?.bind (fun itm => itm.track)).isSome) →
      sourceIndex items i = some i
      ∧ (displayedItems items)[i]? = items[i]?.bind (fun itm => itm.track) := by
  induction items with
  | nil =>
    intro i h
    have h0 := h 0 (Nat.zero_le i)
    simp at h0
  | cons itm rest ih =>
    intro i h
    have h0 := h 0 (Nat.zero_le i)
    simp only [List.getElem?_cons_zero, Option.some_bind] at h0
    match ht : itm.track with
    | none => rw [ht] at h0; simp at h0
    | some t =>
      have hd : displayedItems (itm :: rest) = t :: displayedItems rest := by
        simp [displayedItems, List.filterMap_cons_some ht]
      match i with
      | 0 =>
        refine ⟨by simp [sourceIndex, ht], ?_⟩
        simp [hd, ht]
      | i' + 1 =>
        have h' : ∀ j, j ≤ i' → (rest[j]?.bind (fun itm => itm.track)).isSome := by
          intro j hj
          have := h (j + 1) (Nat.succ_le_succ hj)
          simpa using this
        obtain ⟨ha, hb⟩ := ih i' h'
        refine ⟨by simp [sourceIndex, ht, ha], ?_⟩
        rw [hd]
        simpa using hb

/-- A null-track item strictly before displayed position `i` pushes the
stored position of displayed row `i` strictly beyond `i`. -/
theorem sourceIndex_shifted (items : List PlaylistItem) :
    ∀ i m, (∃ j, j < i ∧ ∃ itm, items[j]? = some itm ∧ itm.track = none) →
      sourceIndex items i = some m → i < m := by
  induction items with
  | nil => intro i m _ h; simp [sourceIndex] at h
  | cons itm rest ih =>
    intro i m hex h
    match ht : itm.track with
    | none =>
      simp only [sourceIndex, ht] at h
      obtain ⟨m', hm', rfl⟩ := Option.map_eq_some'.mp h
      have := sourceIndex_ge rest i m' hm'
      omega
    | some t =>
      obtain ⟨j, hj, itmj, hgj, htj⟩ := hex
      match j with
      | 0 =>
        simp only [List.getElem?_cons_zero, Option.some.injEq] at hgj
        subst hgj
        rw [ht] at htj
        exact absurd htj (by simp)
      | j' + 1 =>
        match i with
        | 0 => omega
        | i' + 1 =>
          simp only [sourceIndex, ht] at h
          obtain ⟨m', hm', rfl⟩ := Option.map_eq_some'.mp h
          have hlt : i' < m' := by
            refine ih i' m' ⟨j', by omega, itmj, ?_, htj⟩ hm'
            simpa using hgj
          omega

/-- C7: the synchronous poll loop applies tick outcomes strictly in start
order: the bar after the first `k+1` ticks is the `(k+1)`-st outcome applied
to the bar after the first `k` ticks, and a successful playing outcome at
position `k` fully determines the bar at that point, independent of any
earlier display state. -/
theorem polls_applied_in_order (bar : BarState) (polls : List PollResult)
    (k : Nat) (hk : k < polls.length) :
    runPolls bar (polls.take (k + 1)) =
      update_playback_state (runPolls bar (polls.take k)) (polls.get ⟨k, hk⟩)
    ∧ (∀ s it a tl, polls.get ⟨k, hk⟩ = PollResult.ok (some s) →
        s.is_playing = true → s.item = some it → it.artists = a :: tl →
        runPolls bar (polls.take (k + 1)) =
          { label := "🎵 " ++ it.name ++ " - " ++ a.name
          , total := it.duration_ms
          , progress := s.progress_ms }) := by
  have hx : polls[k]? = some polls[k] := List.getElem?_eq_getElem hk
  have h1 : polls.take (k + 1) = polls.take k ++ [polls[k]] := by
    rw [List.take_succ, hx]
    rfl
  have h2 : runPolls bar (polls.take (k + 1)) =
      update_playback_state (runPolls bar (polls.take k)) (polls.get ⟨k, hk⟩) := by
    rw [h1]
    simp only [runPolls, List.foldl_append, List.foldl_cons, List.foldl_nil,
      List.get_eq_getElem]
  refine ⟨h2, ?_⟩
  intro s it a tl hget hp hi ha
  rw [h2, hget]
  simp [update_playback_state, update_playback_state_raw, hp, hi, ha, update_status]

/-- Witness for C7: after the two-tick sequence [network error, playing
snapshot of track A], the bar shows exactly the second tick's snapshot. -/
theorem polls_applied_in_order_witness :
    runPolls bar0 [PollResult.err PyErr.otherError, PollResult.ok (some snapshotAX)] =
      { label := "🎵 A - X", total := 200000, progress := 50000 } :=
  (polls_applied_in_order bar0
      [PollResult.err PyErr.otherError, PollResult.ok (some snapshotAX)]
      1 (by decide)).2 snapshotAX
    { name := "A", artists := [{ name := "X" }], duration_ms := 200000 }
    { name := "X" } [] rfl rfl rfl rfl

/-- Counterexample to C9: an update with progress 300000 ms and duration
200000 ms leaves the bar with progress strictly greater than total —
`update_status` does not clamp. -/
theorem update_status_no_clamp :
    (update_status bar0 "A" "X" 300000 200000).total <
      (update_status bar0 "A" "X" 300000 200000).progress := by
  decide

/-- C9 amended: `update_status` stores progress and duration verbatim, with
no clamping — the invariant progress ≤ total holds after an update exactly
when the incoming snapshot already satisfies it. -/
theorem update_status_verbatim (bar : BarState) (n a : String) (p d : Nat) :
    (update_status bar n a p d).progress = p
    ∧ (update_status bar n a p d).total = d
    ∧ (update_status bar n a p d).label = "🎵 " ++ n ++ " - " ++ a
    ∧ ((update_status bar n a p d).progress ≤ (update_status bar n a p d).total
        ↔ p ≤ d) :=
  ⟨rfl, rfl, rfl, Iff.rfl⟩

/-- C10: `load_tracks` stores the full fetched list but renders a row only
per non-null track, while selection indexes the unfiltered stored list; so
when every fetched item up to position `i` has a non-null track the lookup
returns exactly the uri of the track shown in row `i`, and a null-track
item before position `i` puts the shown track at a stored position
strictly beyond the accessed index `i`. -/
theorem row_index_misalignment (items : List PlaylistItem) (i : Nat)
    (hi : i < (displayedItems items).length) :
    ((∀ j, j ≤ i →
        ((load_tracks_stored items)[j]?.bind (fun itm => itm.track)).isSome) →
      sourceIndex items i = some i
      ∧ ∃ t, (displayedItems items)[i]? = some t
          ∧ lookup_track_uri (load_tracks_stored items) i = Except.ok t.uri)
    ∧ ((∃ j, j < i ∧ ∃ itm, (load_tracks_stored items)[j]? = some itm
          ∧ itm.track = none) →
        ∃ m, sourceIndex items i = some m ∧ i < m)
    ∧ (∃ m, sourceIndex items i = some m
        ∧ (load_tracks_stored items)[m]?.bind (fun itm => itm.track) =
            (displayedItems items)[i]?)
    ∧ (load_tracks_rows items)[i]? =
        ((displayedItems items)[i]?).map
          (fun t => (t.name, join_artists t.artists, t.album_name)) := by
  refine ⟨?_, ?_, ?_, ?_⟩
  · intro hall
    simp only [load_tracks_stored] at hall
    obtain ⟨ha, hb⟩ := sourceIndex_prefix_ok items i hall
    refine ⟨ha, ?_⟩
    have hsi := hall i (le_refl i)
    match hg : items[i]? with
    | none => rw [hg] at hsi; simp at hsi
    | some itm =>
      rw [hg] at hsi
      match ht : itm.track with
      | none => simp [ht] at hsi
      | some t =>
        refine ⟨t, ?_, ?_⟩
        · rw [hb, hg]
          simp [ht]
        · simp [load_tracks_stored, lookup_track_uri, hg, ht]
  · intro hex
    simp only [load_tracks_stored] at hex
    obtain ⟨m, hm, _⟩ := sourceIndex_display items i hi
    exact ⟨m, hm, sourceIndex_shifted items i m hex hm⟩
  · simpa only [load_tracks_stored] using sourceIndex_display items i hi
  · simp [load_tracks_rows, List.getElem?_map]

/-- Witness for C10: in a fetched list whose first item has a null track,
displayed row 1 shows the item stored at position 2, while selecting row 1
reads stored position 1 — a strictly different item. -/
theorem row_index_misalignment_witness :
    ∃ m, sourceIndex itemsW 1 = some m ∧ 1 < m :=
  (row_index_misalignment itemsW 1 (by decide)).2.1
    ⟨0, by decide, { track := none }, rfl, rfl⟩
